import Mathlib

/-!
# Verification of the UFO-Galaxy external peer protocol engine

A shallow embedding of the protocol engine of the repository:

* `src/core/device_communication.py` — socket (device) sessions: the
  `DeviceMessage` wire codec, `DeviceConnection`, and the
  `DeviceCommunication` manager (`connect`, `disconnect`, `send`,
  `send_command`, `handle_message`, the heartbeat loop).
* `src/core/mcp_loader.py` — process (MCP server) sessions: `MCPLoader`
  (`load`, `start`, `stop`, `_send_request`, `_initialize`, ...).
* `src/core/mcp_manager.py` — the legacy manager's `_send_request`.

Modelling conventions:

* JSON text is modelled at the level of its abstract syntax tree (`Json`);
  `json.dumps`/`json.loads` round-tripping of the concrete syntax is taken
  as the identity on the tree.  A line that `json.loads` rejects is
  modelled as `none : Option Json`.
* Python `dict`s are association lists with first-match lookup; assignment
  replaces the binding for the key, `pop` removes it.
* Wall-clock time (`time.time()`) is an explicit integer parameter `now`;
  fresh `uuid` message ids are explicit string parameters.
* `asyncio.Future`s live in a global store indexed by `Nat` handles.
* Exceptions are modelled by `Except`/`Option`: a Python `try`/`except`
  is a `match` on the modelled body.
* The effectful collaborators (websocket transport, `device_registry`,
  spawned subprocesses) are modelled by their observable interactions:
  closed sockets, online/offline status reports, registered device ids,
  and per-process stdin/stdout line buffers.
-/

namespace UfoGalaxy

/-- JSON values, the payload universe of both wire formats. -/
inductive Json where
  | null : Json
  | bool (b : Bool) : Json
  | num (n : Int) : Json
  | str (s : String) : Json
  | arr (items : List Json) : Json
  | obj (fields : List (String × Json)) : Json

/-- First-match association-list lookup, the semantics of `dict[k]`. -/
def mapLookup {κ α : Type} [DecidableEq κ] (k : κ) : List (κ × α) → Option α
  | [] => none
  | (k', v) :: rest => if k' = k then some v else mapLookup k rest

/-- `dict[k] = v`: replace the binding for `k`, keep all other bindings. -/
def mapInsert {κ α : Type} [DecidableEq κ] (k : κ) (v : α)
    (m : List (κ × α)) : List (κ × α) :=
  (k, v) :: m.filter (fun p => p.1 ≠ k)

/-- `dict.pop(k, None)`: remove every binding for `k`. -/
def mapErase {κ α : Type} [DecidableEq κ] (k : κ)
    (m : List (κ × α)) : List (κ × α) :=
  m.filter (fun p => p.1 ≠ k)

/-- Key lookup on a JSON object (`raw_msg.get(k)`); `none` both when the
key is missing and when the value is not an object. -/
def Json.find? (j : Json) (k : String) : Option Json :=
  match j with
  | .obj fields => mapLookup k fields
  | _ => none

/-- `obj.get(k, default)`. -/
def Json.getD (j : Json) (k : String) (default : Json) : Json :=
  match j.find? k with
  | some v => v
  | none => default

/-- Python truthiness of a JSON value (`if x:`). -/
def Json.truthy : Json → Bool
  | .null => false
  | .bool b => b
  | .num n => n != 0
  | .str s => s ≠ ""
  | .arr items => !items.isEmpty
  | .obj fields => !fields.isEmpty

/-! ## Device wire codec (`device_communication.py`, `DeviceMessage`) -/

/-- `MessageType` enum of `device_communication.py`. -/
inductive MessageType where
  | command | response | ack
  | heartbeat | status
  | event | error
  | stream_start | stream_data | stream_end
deriving DecidableEq

/-- The `str` value of each `MessageType` member. -/
def MessageType.value : MessageType → String
  | .command => "command"
  | .response => "response"
  | .ack => "ack"
  | .heartbeat => "heartbeat"
  | .status => "status"
  | .event => "event"
  | .error => "error"
  | .stream_start => "stream_start"
  | .stream_data => "stream_data"
  | .stream_end => "stream_end"

/-- `MessageType(s)`: the enum member with value `s`, `none` when the
constructor would raise `ValueError`. -/
def MessageType.ofValue? : String → Option MessageType
  | "command" => some .command
  | "response" => some .response
  | "ack" => some .ack
  | "heartbeat" => some .heartbeat
  | "status" => some .status
  | "event" => some .event
  | "error" => some .error
  | "stream_start" => some .stream_start
  | "stream_data" => some .stream_data
  | "stream_end" => some .stream_end
  | _ => none

/-- The `DeviceMessage` dataclass.  `type` always holds an enum member (as
in every construction site of the source); the remaining fields are
dynamically typed in Python and are therefore modelled as `Json`. -/
structure DeviceMessage where
  type : MessageType
  action : Json
  payload : Json
  message_id : Json
  timestamp : Json
  device_id : Json
  correlation_id : Json

/-- `DeviceMessage.to_json` (the object built by `json.dumps`). -/
def DeviceMessage.to_json (m : DeviceMessage) : Json :=
  .obj [("type", .str m.type.value),
        ("action", m.action),
        ("payload", m.payload),
        ("message_id", m.message_id),
        ("timestamp", m.timestamp),
        ("device_id", m.device_id),
        ("correlation_id", m.correlation_id)]

/-- `DeviceMessage.from_json` on an already-decoded value.  `none` models
the exceptions of the source: `obj.get` on a non-object (`AttributeError`)
and `MessageType(...)` on an unknown value (`ValueError`).  `now` is the
`time.time()` default used for a missing `timestamp`. -/
def DeviceMessage.from_json (raw : Json) (now : Int) : Option DeviceMessage :=
  match raw with
  | .obj _ =>
    let t? : Option MessageType :=
      match raw.find? "type" with
      | none => some .command          -- obj.get("type", "command")
      | some (.str s) => MessageType.ofValue? s
      | some _ => none                 -- MessageType(non-string) raises
    match t? with
    | none => none
    | some t =>
      some { type := t
             action := raw.getD "action" (.str "")
             payload := raw.getD "payload" (.obj [])
             message_id := raw.getD "message_id" (.str "")
             timestamp := raw.getD "timestamp" (.num now)
             device_id := raw.getD "device_id" (.str "")
             correlation_id := raw.getD "correlation_id" (.str "") }
  | _ => none

/-! ## Device sessions (`device_communication.py`) -/

/-- The state of an `asyncio.Future` held in `pending_requests`. -/
inductive FutureState where
  | pending : FutureState
  | resolved (v : Json) : FutureState
  | cancelled : FutureState

/-- The `DeviceConnection` dataclass.  `websocket` is the handle of the
underlying socket (`none` models `websocket=None`); `pending_requests`
maps a message id to the handle of its waiter future in the global
future store. -/
structure DeviceConnection where
  device_id : String
  websocket : Option Nat := none
  connected_at : Int := 0
  last_heartbeat : Int := 0
  last_message : Int := 0
  messages_sent : Nat := 0
  messages_received : Nat := 0
  commands_executed : Nat := 0
  errors : Nat := 0
  status : String := "connected"
  pending_requests : List (String × Nat) := []

/-- `DeviceConnection.is_alive`: the last heartbeat is younger than
`timeout` seconds. -/
def DeviceConnection.is_alive (c : DeviceConnection) (now timeout : Int) : Bool :=
  now - c.last_heartbeat < timeout

/-- The state of the `DeviceCommunication` manager together with its
observable environment: the global future store, the sockets that have
been closed, the status reports sent to the `device_registry`
collaborator, and the device ids auto-registered with it. -/
structure CommState where
  connections : List (String × DeviceConnection) := []
  futures : List (Nat × FutureState) := []
  next_future : Nat := 0
  closed_sockets : List Nat := []
  registry_online : List String := []
  registry_offline : List String := []
  registered_devices : List String := []
  heartbeat_interval : Int := 30
  heartbeat_timeout : Int := 60
  command_timeout : Int := 30

/-- `DeviceCommunication.connect`: store a fresh `DeviceConnection` for
`device_id` (replacing any previous one) and report the device online. -/
def DeviceCommunication.connect (st : CommState) (device_id : String)
    (ws : Nat) (now : Int) : Bool × CommState :=
  let conn : DeviceConnection :=
    { device_id := device_id, websocket := some ws, connected_at := now,
      last_heartbeat := now, last_message := now, status := "connected" }
  (true,
   { st with connections := mapInsert device_id conn st.connections,
             registry_online := device_id :: st.registry_online })

/-- `DeviceCommunication.disconnect`: pop the connection, close its
websocket, and report the device offline.  The futures in
`pending_requests` are not touched. -/
def DeviceCommunication.disconnect (st : CommState) (device_id : String) :
    Bool × CommState :=
  match mapLookup device_id st.connections with
  | none => (false, st)
  | some conn =>
    let st1 := { st with connections := mapErase device_id st.connections }
    let st2 :=
      match conn.websocket with
      | some w => { st1 with closed_sockets := w :: st1.closed_sockets }
      | none => st1
    (true, { st2 with registry_offline := device_id :: st2.registry_offline })

/-- `DeviceCommunication.send`: write one message on the device's
websocket.  `wire_ok` is whether `websocket.send_text` succeeds; the
assignment `message.device_id = device_id` and the bytes on the wire are
not observed by any claim and are not recorded. -/
def DeviceCommunication.send (st : CommState) (device_id : String)
    (_message : DeviceMessage) (wire_ok : Bool) (now : Int) : Bool × CommState :=
  match mapLookup device_id st.connections with
  | none => (false, st)
  | some conn =>
    match conn.websocket with
    | none => (false, st)
    | some _ =>
      if wire_ok then
        let conn := { conn with messages_sent := conn.messages_sent + 1,
                                last_message := now }
        (true, { st with connections := mapInsert device_id conn st.connections })
      else
        let conn := { conn with errors := conn.errors + 1 }
        (false, { st with connections := mapInsert device_id conn st.connections })

/-- The error dictionaries returned by `send_command`. -/
def cmdErr (msg : String) : Json :=
  .obj [("success", .bool false), ("error", .str msg)]

/-- What happened while `send_command` awaited its waiter:
the transport write failed (`send` returned `False`),
no response arrived within the timeout (`asyncio.TimeoutError`),
the read loop resolved the future with a response payload, or
some other exception was raised. -/
inductive CallOutcome where
  | sendFail : CallOutcome
  | timeout : CallOutcome
  | respond (v : Json) : CallOutcome
  | exc (e : String) : CallOutcome

/-- The `finally:` clause of `send_command`:
`conn.pending_requests.pop(message.message_id, None)`. -/
def popPending (st : CommState) (device_id mid : String) : CommState :=
  match mapLookup device_id st.connections with
  | none => st
  | some conn =>
    let conn := { conn with pending_requests := mapErase mid conn.pending_requests }
    { st with connections := mapInsert device_id conn st.connections }

/-- `DeviceCommunication.send_command`: register a waiter future under the
fresh message id `mid`, send the command, and settle according to
`outcome`.  On every exit path the `finally:` clause pops the pending
entry. -/
def DeviceCommunication.send_command (st : CommState) (device_id action : String)
    (params : Json) (timeout? : Option Int) (mid : String) (now : Int)
    (outcome : CallOutcome) : Json × CommState :=
  match mapLookup device_id st.connections with
  | none => (cmdErr "设备未连接", st)
  | some conn =>
    match conn.websocket with
    | none => (cmdErr "设备未连接", st)
    | some _ =>
      -- timeout = timeout or self.command_timeout  (0 is falsy)
      let _timeout : Int :=
        match timeout? with
        | none => st.command_timeout
        | some t => if t = 0 then st.command_timeout else t
      let message : DeviceMessage :=
        { type := .command, action := .str action, payload := params,
          message_id := .str mid, timestamp := .num now,
          device_id := .str "", correlation_id := .str "" }
      let fid := st.next_future
      let conn := { conn with pending_requests := mapInsert mid fid conn.pending_requests }
      let st1 : CommState :=
        { st with connections := mapInsert device_id conn st.connections,
                  futures := mapInsert fid .pending st.futures,
                  next_future := fid + 1 }
      match outcome with
      | .sendFail =>
        let st2 := (DeviceCommunication.send st1 device_id message false now).2
        (cmdErr "发送失败", popPending st2 device_id mid)
      | .timeout =>
        let st2 := (DeviceCommunication.send st1 device_id message true now).2
        -- asyncio.wait_for cancels the future when the timeout elapses
        let st2 := { st2 with futures := mapInsert fid .cancelled st2.futures }
        (cmdErr "命令超时", popPending st2 device_id mid)
      | .respond v =>
        let st2 := (DeviceCommunication.send st1 device_id message true now).2
        -- the read loop resolved the waiter with the response payload
        let st2 := { st2 with futures := mapInsert fid (.resolved v) st2.futures }
        let st2 :=
          match mapLookup device_id st2.connections with
          | some c =>
            let c := { c with commands_executed := c.commands_executed + 1 }
            { st2 with connections := mapInsert device_id c st2.connections }
          | none => st2
        (v, popPending st2 device_id mid)
      | .exc e =>
        let st2 := (DeviceCommunication.send st1 device_id message true now).2
        (cmdErr e, popPending st2 device_id mid)

/-- One step of the body of `_heartbeat_loop`: evict the device when its
snapshot connection misses the heartbeat window, otherwise send it a
heartbeat probe. -/
def heartbeatStep (now : Int) (wire_ok : String → Bool)
    (st : CommState) (item : String × DeviceConnection) : CommState :=
  if item.2.is_alive now st.heartbeat_timeout then
    (DeviceCommunication.send st item.1
      { type := .heartbeat, action := .str "", payload := .obj [],
        message_id := .str "", timestamp := .num now,
        device_id := .str "", correlation_id := .str "" }
      (wire_ok item.1) now).2
  else
    (DeviceCommunication.disconnect st item.1).2

/-- One iteration of `DeviceCommunication._heartbeat_loop`: iterate over a
snapshot of `self.connections.items()`, evicting stale connections and
probing the rest.  `wire_ok` is whether the probe write to each device
succeeds. -/
def heartbeatSweep (st : CommState) (now : Int) (wire_ok : String → Bool) :
    CommState :=
  st.connections.foldl (heartbeatStep now wire_ok) st

/-- Behaviour of a handler registered with `register_handler` (an external
collaborator callback): it may raise, or return a falsy result
(`returns none`) or a truthy result dict (`returns (some r)`).  No code in
the repository registers a handler, so the registry is empty in the
shipped program. -/
inductive HandlerOutcome where
  | throws : HandlerOutcome
  | returns (result : Option Json) : HandlerOutcome

/-- `message.correlation_id in conn.pending_requests`: the keys of the
pending dict are strings, so only a string correlation id can match. -/
def pendingLookup (j : Json) (m : List (String × Nat)) : Option Nat :=
  match j with
  | .str s => mapLookup s m
  | _ => none

/-- Write an updated connection object back into the connection map
(Python mutates the `conn` object in place). -/
def putConn (st : CommState) (device_id : String) (conn : DeviceConnection) :
    CommState :=
  { st with connections := mapInsert device_id conn st.connections }

/-- The dispatch on `message.type` shared by the AIP branch and the
standard `DeviceMessage` branch of `handle_message` (the source's
straight-line tail after parsing).  An `.error` value is an exception that
escapes the dispatch and is caught by the top-level `except`, carrying the
state mutated so far. -/
def handleParsed (st : CommState) (device_id : String) (conn : DeviceConnection)
    (message : DeviceMessage) (now : Int) (mid : String)
    (handlers : List (String × HandlerOutcome)) :
    Except CommState (Option DeviceMessage × CommState) :=
  let conn := { conn with messages_received := conn.messages_received + 1,
                          last_message := now }
  match message.type with
  | .heartbeat =>
    let conn := { conn with last_heartbeat := now }
    .ok (some { type := .ack, action := .str "heartbeat", payload := .obj [],
                message_id := .str mid, timestamp := .num now,
                device_id := .str "", correlation_id := message.message_id },
         putConn st device_id conn)
  | .response =>
    match pendingLookup message.correlation_id conn.pending_requests with
    | some fid =>
      let futures :=
        match mapLookup fid st.futures with
        | some .pending => mapInsert fid (.resolved message.payload) st.futures
        | _ => st.futures            -- future.done(): do not set a result
      .ok (none, { putConn st device_id conn with futures := futures })
    | none => .ok (none, putConn st device_id conn)
  | .status =>
    -- _handle_status only reads the payload (its body is a guarded no-op)
    .ok (some { type := .ack, action := .str "status", payload := .obj [],
                message_id := .str mid, timestamp := .num now,
                device_id := .str "", correlation_id := message.message_id },
         putConn st device_id conn)
  | .event =>
    -- _handle_event only logs
    .ok (none, putConn st device_id conn)
  | .error =>
    let conn := { conn with errors := conn.errors + 1 }
    .ok (none, putConn st device_id conn)
  | _ =>
    -- command / stream_*: emit the "message" event (each callback is
    -- individually guarded) and consult the registered handlers
    match message.action with
    | .str a =>
      match mapLookup a handlers with
      | some .throws => .error (putConn st device_id conn)
      | some (.returns (some r)) =>
        .ok (some { type := .response, action := message.action, payload := r,
                    message_id := .str mid, timestamp := .num now,
                    device_id := .str "", correlation_id := message.message_id },
             putConn st device_id conn)
      | some (.returns none) => .ok (none, putConn st device_id conn)
      | none => .ok (none, putConn st device_id conn)
    | _ => .ok (none, putConn st device_id conn)

/-- The body of `DeviceCommunication.handle_message` (everything inside
its `try:`), with the no-connection early return in front.  `raw?` is the
result of `json.loads` (`none` when the line is not valid JSON); an
`.error` value is an exception caught by the enclosing `except`. -/
def handleMessageBody (st : CommState) (device_id : String) (raw? : Option Json)
    (now : Int) (mid : String) (handlers : List (String × HandlerOutcome)) :
    Except CommState (Option DeviceMessage × CommState) :=
  match mapLookup device_id st.connections with
  | none => .ok (none, st)
  | some conn =>
    match raw? with
    | none => .error st                       -- json.loads raised
    | some raw =>
      match raw with
      | .obj _ =>
        match raw.find? "type" with
        | some (.str "handshake") =>
          -- auto-register the device when the registry does not know it
          let st :=
            if st.registered_devices.contains device_id then st
            else { st with registered_devices := device_id :: st.registered_devices }
          .ok (some { type := .ack, action := .str "handshake",
                      payload := .obj [("status", .str "connected"),
                                       ("device_id", .str device_id)],
                      message_id := .str mid, timestamp := .num now,
                      device_id := .str "", correlation_id := .str "" },
               st)
        | some (.str "heartbeat") =>
          let conn := { conn with last_heartbeat := now }
          .ok (some { type := .ack, action := .str "heartbeat", payload := .obj [],
                      message_id := .str mid, timestamp := .num now,
                      device_id := .str "", correlation_id := .str "" },
               putConn st device_id conn)
        | tfield =>
          match tfield, raw.find? "payload" with
          | some tval, some pval =>
            -- AIP envelope: "type" in raw_msg and "payload" in raw_msg
            match tval with
            | .str s =>
              let mtype : MessageType :=
                if s = "TEXT" ∨ s = "COMMAND" then .command else .event
              handleParsed st device_id conn
                { type := mtype, action := .str s.toLower, payload := pval,
                  message_id := .str mid, timestamp := .num now,
                  device_id := .str device_id, correlation_id := .str "" }
                now mid handlers
            | _ => .error st                  -- non-string .lower() raises
          | _, _ =>
            match DeviceMessage.from_json raw now with
            | none => .error st               -- MessageType(...) raised
            | some message =>
              handleParsed st device_id conn message now mid handlers
      | _ => .error st                        -- raw_msg.get on a non-dict raises

/-- `DeviceCommunication.handle_message`: the body wrapped in the
`try`/`except` that logs any exception and returns `None`. -/
def DeviceCommunication.handle_message (st : CommState) (device_id : String)
    (raw? : Option Json) (now : Int) (mid : String)
    (handlers : List (String × HandlerOutcome)) :
    Option DeviceMessage × CommState :=
  match handleMessageBody st device_id raw? now mid handlers with
  | .ok r => r
  | .error st' => (none, st')

/-! ## Process sessions (`mcp_loader.py`, `mcp_manager.py`) -/

/-- The status enum shared (textually) by both MCP modules. -/
inductive MCPServerStatus where
  | stopped | starting | running | error
deriving DecidableEq

/-- The `str` value of each status member. -/
def MCPServerStatus.value : MCPServerStatus → String
  | .stopped => "stopped"
  | .starting => "starting"
  | .running => "running"
  | .error => "error"

/-- The `MCPRequest` dataclass of `mcp_loader.py`. -/
structure MCPRequest where
  jsonrpc : String := "2.0"
  id : Option Int := none
  method : String := ""
  params : Json := .obj []

/-- `MCPRequest.to_json` (the object built by `json.dumps`). -/
def MCPRequest.to_json (r : MCPRequest) : Json :=
  .obj [("jsonrpc", .str r.jsonrpc),
        ("id", match r.id with | some n => .num n | none => .null),
        ("method", .str r.method),
        ("params", r.params)]

/-- The `MCPResponse` dataclass.  Its fields are dynamically typed
(`obj.get` results), so they are modelled as `Json`, with `.null` for a
missing key. -/
structure MCPResponse where
  jsonrpc : Json := .str "2.0"
  id : Json := .null
  result : Json := .null
  error : Json := .null

/-- `MCPResponse.from_json` on an already-decoded line; `none` models the
`AttributeError` of `obj.get` on a non-object. -/
def MCPResponse.from_json (raw : Json) : Option MCPResponse :=
  match raw with
  | .obj _ =>
    some { jsonrpc := raw.getD "jsonrpc" (.str "2.0"),
           id := raw.getD "id" .null,
           result := raw.getD "result" .null,
           error := raw.getD "error" .null }
  | _ => none

/-- The `MCPTool` dataclass of `mcp_loader.py` and
`MCPTool.from_dict`'s field extraction (string fields modelled by their
defaults when the value is not a string). -/
structure MCPTool where
  name : String
  description : String
  inputSchema : Json := .obj []

/-- `obj.get(k, default)` restricted to strings. -/
def Json.getStrD (j : Json) (k : String) (default : String) : String :=
  match j.find? k with
  | some (.str s) => s
  | _ => default

/-- `MCPTool.from_dict`. -/
def MCPTool.from_dict (data : Json) : MCPTool :=
  { name := data.getStrD "name" "",
    description := data.getStrD "description" "",
    inputSchema := data.getD "inputSchema" (.obj []) }

/-- The `MCPResource` dataclass and `MCPResource.from_dict`. -/
structure MCPResource where
  uri : String
  name : String
  description : String := ""
  mimeType : String := ""

/-- `MCPResource.from_dict`. -/
def MCPResource.from_dict (data : Json) : MCPResource :=
  { uri := data.getStrD "uri" "",
    name := data.getStrD "name" "",
    description := data.getStrD "description" "",
    mimeType := data.getStrD "mimeType" "" }

/-- The `MCPPrompt` dataclass and `MCPPrompt.from_dict`. -/
structure MCPPrompt where
  name : String
  description : String
  arguments : Json := .arr []

/-- `MCPPrompt.from_dict`. -/
def MCPPrompt.from_dict (data : Json) : MCPPrompt :=
  { name := data.getStrD "name" "",
    description := data.getStrD "description" "",
    arguments := data.getD "arguments" (.arr []) }

/-- A spawned subprocess as the loader observes it: `alive` is whether
`poll()` returns `None` at the startup probe (assumed stable over the
synchronous request sequence that follows), `stdout_lines` the decoded
lines waiting on stdout (`none` for a line `json.loads` rejects),
`stderr_text` the readable stderr, and `stdin_writes` the record of the
JSON lines written to its stdin. -/
structure ProcessHandle where
  alive : Bool := true
  stdout_lines : List (Option Json) := []
  stderr_text : String := ""
  stdin_writes : List Json := []

/-- The `MCPServerInstance` dataclass of `mcp_loader.py`. -/
structure MCPServerInstance where
  id : String
  name : String
  command : List String
  args : List String := []
  env : List (String × String) := []
  cwd : String := ""
  status : MCPServerStatus := .stopped
  process : Option ProcessHandle := none
  error : Option String := none
  tools : List MCPTool := []
  resources : List MCPResource := []
  prompts : List MCPPrompt := []
  server_info : Json := .obj []
  capabilities : Json := .obj []

/-- The `MCPLoader` singleton's state: the server map and the
monotonically increasing `_request_id` counter shared by all of the
loader's sessions. -/
structure MCPLoader where
  servers : List (String × MCPServerInstance) := []
  request_id : Nat := 0

/-- Replace a server's process handle in the map (in-place mutation of
the `server.process` object in the source). -/
def MCPLoader.putProc (st : MCPLoader) (server_id : String)
    (server : MCPServerInstance) (proc : ProcessHandle) : MCPLoader :=
  { st with servers :=
      mapInsert server_id { server with process := some proc } st.servers }

/-- `MCPLoader._send_request`: bump `_request_id`, write the request, and
return the parse of the *next* stdout line — whatever id that line
carries.  `none` both when the write or the read raises (caught by the
`except`) and when `readline` returns the empty string at EOF. -/
def MCPLoader._send_request (st : MCPLoader) (server_id method : String)
    (params : Json) : Option MCPResponse × MCPLoader :=
  match mapLookup server_id st.servers with
  | none => (none, st)
  | some server =>
    match server.process with
    | none => (none, st)
    | some proc =>
      let rid := st.request_id + 1
      let st := { st with request_id := rid }
      let request : MCPRequest := { id := some (rid : Int), method := method,
                                    params := params }
      if proc.alive then
        let proc := { proc with stdin_writes := proc.stdin_writes ++ [request.to_json] }
        match proc.stdout_lines with
        | [] =>
          -- readline() returned b"": `if response_line:` is false
          (none, st.putProc server_id server proc)
        | line? :: rest =>
          let proc := { proc with stdout_lines := rest }
          let st := st.putProc server_id server proc
          match line? with
          | none => (none, st)                    -- json.loads raised
          | some j =>
            match MCPResponse.from_json j with
            | none => (none, st)                  -- obj.get raised
            | some r => (some r, st)
      else
        (none, st)        -- stdin.write on a dead process raised

/-- `MCPLoader._send_notification`: write a request without an `id` key
and read nothing back (the write on a dead process, unreachable in the
modelled synchronous flow, is a no-op here). -/
def MCPLoader._send_notification (st : MCPLoader) (server_id method : String)
    (params : Json) : MCPLoader :=
  match mapLookup server_id st.servers with
  | none => st
  | some server =>
    match server.process with
    | none => st
    | some proc =>
      if proc.alive then
        let notification : Json :=
          .obj [("jsonrpc", .str "2.0"), ("method", .str method),
                ("params", params)]
        st.putProc server_id server
          { proc with stdin_writes := proc.stdin_writes ++ [notification] }
      else st

/-- `result.get(key, [])` followed by iteration: a non-array value is
modelled as the empty list. -/
def Json.getArrD (j : Json) (k : String) : List Json :=
  match j.find? k with
  | some (.arr items) => items
  | _ => []

/-- `MCPLoader._refresh_tools`. -/
def MCPLoader._refresh_tools (st : MCPLoader) (server_id : String) : MCPLoader :=
  let (response?, st) := st._send_request server_id "tools/list" (.obj [])
  match response? with
  | some response =>
    if response.result.truthy then
      match mapLookup server_id st.servers with
      | some server =>
        let server := { server with tools := (response.result.getArrD "tools").map MCPTool.from_dict }
        { st with servers := mapInsert server_id server st.servers }
      | none => st
    else st
  | none => st

/-- `MCPLoader._refresh_resources`. -/
def MCPLoader._refresh_resources (st : MCPLoader) (server_id : String) : MCPLoader :=
  let (response?, st) := st._send_request server_id "resources/list" (.obj [])
  match response? with
  | some response =>
    if response.result.truthy then
      match mapLookup server_id st.servers with
      | some server =>
        let server := { server with resources := (response.result.getArrD "resources").map MCPResource.from_dict }
        { st with servers := mapInsert server_id server st.servers }
      | none => st
    else st
  | none => st

/-- `MCPLoader._refresh_prompts`. -/
def MCPLoader._refresh_prompts (st : MCPLoader) (server_id : String) : MCPLoader :=
  let (response?, st) := st._send_request server_id "prompts/list" (.obj [])
  match response? with
  | some response =>
    if response.result.truthy then
      match mapLookup server_id st.servers with
      | some server =>
        let server := { server with prompts := (response.result.getArrD "prompts").map MCPPrompt.from_dict }
        { st with servers := mapInsert server_id server st.servers }
      | none => st
    else st
  | none => st

/-- The `params` of the `initialize` handshake request. -/
def initializeParams : Json :=
  .obj [("protocolVersion", .str "2024-11-05"),
        ("capabilities", .obj []),
        ("clientInfo", .obj [("name", .str "UFO-Galaxy"),
                             ("version", .str "1.0.0")])]

/-- `MCPLoader._initialize`: the handshake sequence — `initialize`
request, `notifications/initialized`, then the three capability
snapshot queries. -/
def MCPLoader._initialize (st : MCPLoader) (server_id : String) : Bool × MCPLoader :=
  let (response?, st) := st._send_request server_id "initialize" initializeParams
  match response? with
  | some response =>
    if response.result.truthy then
      let st :=
        match mapLookup server_id st.servers with
        | some server =>
          let server :=
            { server with
                server_info := response.result.getD "serverInfo" (.obj []),
                capabilities := response.result.getD "capabilities" (.obj []) }
          { st with servers := mapInsert server_id server st.servers }
        | none => st
      let st := st._send_notification server_id "notifications/initialized" (.obj [])
      let st := st._refresh_tools server_id
      let st := st._refresh_resources server_id
      let st := st._refresh_prompts server_id
      (true, st)
    else (false, st)
  | none => (false, st)

/-- The outcome of `subprocess.Popen` plus the 0.5s startup probe:
either `Popen` itself raised, or a process was spawned whose
`poll()`-at-probe status is `proc.alive`. -/
inductive SpawnOutcome where
  | failSpawn (e : String) : SpawnOutcome
  | spawned (proc : ProcessHandle) : SpawnOutcome

/-- `MCPLoader.start`: set STARTING, spawn, probe, run `_initialize`
(result discarded by the source), and set RUNNING — or set ERROR and
return `False` when the spawn raises or the process is already dead at
the probe. -/
def MCPLoader.start (st : MCPLoader) (server_id : String)
    (spawn : SpawnOutcome) : Bool × MCPLoader :=
  match mapLookup server_id st.servers with
  | none => (false, st)
  | some server =>
    let server := { server with status := .starting }
    match spawn with
    | .failSpawn e =>
      let server := { server with status := .error, error := some e }
      (false, { st with servers := mapInsert server_id server st.servers })
    | .spawned proc =>
      let server := { server with process := some proc }
      if proc.alive then
        let st := { st with servers := mapInsert server_id server st.servers }
        let (_, st) := st._initialize server_id
        let st :=
          match mapLookup server_id st.servers with
          | some s =>
            let s := { s with status := .running }
            { st with servers := mapInsert server_id s st.servers }
          | none => st
        (true, st)
      else
        let server := { server with status := .error, error := some proc.stderr_text }
        (false, { st with servers := mapInsert server_id server st.servers })

/-- `MCPLoader.load`: create the instance, put it into `self.servers`,
and auto-start it.  `server_id` is the fresh `uuid` id.  On a failed
start the error dictionary is returned — but the instance is never
removed from `self.servers`. -/
def MCPLoader.load (st : MCPLoader) (name : String) (command : List String)
    (args : List String) (env : List (String × String)) (cwd : String)
    (auto_start : Bool) (server_id : String) (spawn : SpawnOutcome) :
    Json × MCPLoader :=
  let server : MCPServerInstance :=
    { id := server_id, name := name, command := command, args := args,
      env := env, cwd := cwd }
  let st := { st with servers := mapInsert server_id server st.servers }
  if auto_start then
    let (success, st) := st.start server_id spawn
    if success then
      let statusValue :=
        match mapLookup server_id st.servers with
        | some s => s.status.value
        | none => ""
      (.obj [("success", .bool true), ("server_id", .str server_id),
             ("name", .str name), ("status", .str statusValue)], st)
    else
      let errorValue : Json :=
        match mapLookup server_id st.servers with
        | some s => (match s.error with | some e => .str e | none => .null)
        | none => .null
      (.obj [("success", .bool false), ("error", errorValue),
             ("server_id", .str server_id)], st)
  else
    (.obj [("success", .bool true), ("server_id", .str server_id),
           ("name", .str name), ("status", .str MCPServerStatus.stopped.value)], st)

/-- `MCPLoader.stop`: terminate/kill the process, drop the handle, set
STOPPED.  No pending-call bookkeeping exists to resolve. -/
def MCPLoader.stop (st : MCPLoader) (server_id : String) : Bool × MCPLoader :=
  match mapLookup server_id st.servers with
  | none => (false, st)
  | some server =>
    let server := { server with process := none, status := .stopped }
    (true, { st with servers := mapInsert server_id server st.servers })

/-- `MCPLoader.unload`: stop, then remove the server from the map. -/
def MCPLoader.unload (st : MCPLoader) (server_id : String) : Json × MCPLoader :=
  match mapLookup server_id st.servers with
  | none => (.obj [("success", .bool false), ("error", .str "服务器不存在")], st)
  | some _ =>
    let (_, st) := st.stop server_id
    let nameValue :=
      match mapLookup server_id st.servers with
      | some s => s.name
      | none => ""
    (.obj [("success", .bool true), ("server_id", .str server_id),
           ("name", .str nameValue)],
     { st with servers := mapErase server_id st.servers })

/-- The `MCPServer` dataclass of `mcp_manager.py` (only the fields its
`_send_request` touches are relevant). -/
structure ManagerMCPServer where
  name : String
  command : List String
  env : List (String × String) := []
  status : MCPServerStatus := .stopped
  process : Option ProcessHandle := none
  error : Option String := none

/-- The `MCPManager` singleton's server map (it has no request counter). -/
structure MCPManager where
  servers : List (String × ManagerMCPServer) := []

/-- `MCPManager._send_request`: the request id is the constant `1` for
every request; the next stdout line is decoded and returned as the
response, whatever id it carries.  Unlike the loader there is no guard on
the empty line, so EOF raises in `json.loads` and is caught. -/
def MCPManager._send_request (st : MCPManager) (server_name method : String)
    (params : Json) : Option Json × MCPManager :=
  match mapLookup server_name st.servers with
  | none => (none, st)
  | some server =>
    match server.process with
    | none => (none, st)
    | some proc =>
      let request : Json :=
        .obj [("jsonrpc", .str "2.0"), ("id", .num 1),
              ("method", .str method), ("params", params)]
      if proc.alive then
        let proc := { proc with stdin_writes := proc.stdin_writes ++ [request] }
        match proc.stdout_lines with
        | [] =>
          -- readline() returned "": json.loads("") raises, caught
          let server := { server with process := some proc }
          (none, { st with servers := mapInsert server_name server st.servers })
        | line? :: rest =>
          let proc := { proc with stdout_lines := rest }
          let server := { server with process := some proc }
          let st := { st with servers := mapInsert server_name server st.servers }
          (line?, st)
      else
        (none, st)

/-! ## Observation helpers for the theorems -/

/-- The pending-table entry registered under `mid` on `device_id`'s
connection. -/
def pendingEntry (st : CommState) (device_id mid : String) : Option Nat :=
  match mapLookup device_id st.connections with
  | some c => mapLookup mid c.pending_requests
  | none => none

/-- The process handle of a loader server. -/
def serverProc (st : MCPLoader) (server_id : String) : Option ProcessHandle :=
  match mapLookup server_id st.servers with
  | some s => s.process
  | none => none

/-- The process handle of a manager server. -/
def serverProcM (st : MCPManager) (server_name : String) : Option ProcessHandle :=
  match mapLookup server_name st.servers with
  | some s => s.process
  | none => none

/-- The state carried by a `handle_message` body result, whether it
returned or raised. -/
def exceptState (r : Except CommState (Option DeviceMessage × CommState)) :
    CommState :=
  match r with
  | .ok (_, s) => s
  | .error s => s

/-- Whether a `handle_message` body result returned normally. -/
def exceptOk (r : Except CommState (Option DeviceMessage × CommState)) : Bool :=
  match r with
  | .ok _ => true
  | .error _ => false

/-- The response carried by a `handle_message` body result. -/
def exceptResp (r : Except CommState (Option DeviceMessage × CommState)) :
    Option DeviceMessage :=
  match r with
  | .ok (m, _) => m
  | .error _ => none

/-! ## Theorems -/

/-! ### Association-list lemmas -/

theorem mapLookup_erase_self {κ α : Type} [DecidableEq κ] (k : κ)
    (m : List (κ × α)) : mapLookup k (mapErase k m) = none := by
  induction m with
  | nil => rfl
  | cons p rest ih =>
    obtain ⟨pk, pv⟩ := p
    by_cases hp : pk = k
    · simpa [mapErase, List.filter_cons, hp] using ih
    · simpa [mapErase, List.filter_cons, hp, mapLookup] using ih

theorem mapLookup_erase_ne {κ α : Type} [DecidableEq κ] {k k' : κ}
    (m : List (κ × α)) (h : k' ≠ k) :
    mapLookup k (mapErase k' m) = mapLookup k m := by
  induction m with
  | nil => rfl
  | cons p rest ih =>
    obtain ⟨pk, pv⟩ := p
    by_cases hp : pk = k'
    · subst hp
      simpa [mapErase, List.filter_cons, mapLookup, h, Ne.symm h] using ih
    · by_cases hpk : pk = k
      · simp [mapErase, List.filter_cons, mapLookup, hp, hpk, Ne.symm h]
      · simpa [mapErase, List.filter_cons, mapLookup, hp, hpk] using ih

theorem mapLookup_insert_self {κ α : Type} [DecidableEq κ] (k : κ) (v : α)
    (m : List (κ × α)) : mapLookup k (mapInsert k v m) = some v := by
  simp [mapInsert, mapLookup]

theorem mapLookup_insert_ne {κ α : Type} [DecidableEq κ] {k k' : κ} (v : α)
    (m : List (κ × α)) (h : k' ≠ k) :
    mapLookup k (mapInsert k' v m) = mapLookup k m := by
  have hrw : mapInsert k' v m = (k', v) :: mapErase k' m := rfl
  rw [hrw]
  simp [mapLookup, h, mapLookup_erase_ne m h]

/-! ### C2 -/

/-- C2 (amended): `disconnect()` on a session removes the connection,
closes its socket, and reports it offline, but the waiter futures of its
pending calls are left untouched (still pending), so the callers complete
only via their own timeouts; `MCPLoader.stop` terminates the process and
sets STOPPED, and has no pending-call bookkeeping to resolve. -/
theorem stop_disconnect_leave_pending_unresolved :
    (∀ (st : CommState) (d : String) (conn : DeviceConnection),
       mapLookup d st.connections = some conn →
       (DeviceCommunication.disconnect st d).1 = true ∧
       mapLookup d (DeviceCommunication.disconnect st d).2.connections = none ∧
       (DeviceCommunication.disconnect st d).2.futures = st.futures ∧
       d ∈ (DeviceCommunication.disconnect st d).2.registry_offline) ∧
    (∀ (lst : MCPLoader) (sid : String) (srv : MCPServerInstance),
       mapLookup sid lst.servers = some srv →
       mapLookup sid (MCPLoader.stop lst sid).2.servers =
         some { srv with process := none, status := .stopped }) := by
  constructor
  · intro st d conn h
    simp only [DeviceCommunication.disconnect, h]
    cases conn.websocket with
    | none => simp [mapLookup_erase_self]
    | some w => simp [mapLookup_erase_self]
  · intro lst sid srv h
    simp only [MCPLoader.stop, h]
    simp [mapLookup_insert_self]

/-- The connection and loader states of the C2 witness. -/
def c2Conn : DeviceConnection :=
  { device_id := "d1", websocket := some 7, pending_requests := [("m1", 0)] }

/-- A device-communication state with one pending call awaiting future 0. -/
def c2St : CommState :=
  { connections := [("d1", c2Conn)], futures := [(0, .pending)], next_future := 1 }

/-- A loader state with one running server. -/
def c2Loader : MCPLoader :=
  { servers := [("s", { id := "s", name := "srv", command := ["node"],
                        status := .running, process := some {} })] }

theorem stop_disconnect_leave_pending_unresolved_witness :
    ((DeviceCommunication.disconnect c2St "d1").1 = true ∧
     mapLookup "d1" (DeviceCommunication.disconnect c2St "d1").2.connections = none ∧
     (DeviceCommunication.disconnect c2St "d1").2.futures = c2St.futures ∧
     "d1" ∈ (DeviceCommunication.disconnect c2St "d1").2.registry_offline) ∧
    mapLookup "s" (MCPLoader.stop c2Loader "s").2.servers =
      some { id := "s", name := "srv", command := ["node"],
             status := .stopped, process := none } :=
  ⟨stop_disconnect_leave_pending_unresolved.1 c2St "d1" c2Conn rfl,
   stop_disconnect_leave_pending_unresolved.2 c2Loader "s"
     { id := "s", name := "srv", command := ["node"],
       status := .running, process := some {} } rfl⟩

/-- C2 (counterexample): disconnecting the session of `c2St`, which has
one pending call, removes the connection but leaves the call's waiter
future 0 still pending — it is not resolved with a `Closed` error. -/
theorem disconnect_leaves_pending_cex :
    mapLookup "d1" (DeviceCommunication.disconnect c2St "d1").2.connections = none ∧
    mapLookup 0 (DeviceCommunication.disconnect c2St "d1").2.futures =
      some FutureState.pending := by
  constructor <;> rfl

/-! ### C5 -/

/-- C5 (amended): `load()` of a command that is already dead at the
startup probe returns a discriminated error dictionary
(`success := false` with the probe's stderr as error) rather than
raising — but the failed server instance is *not* removed: it stays in
the loader's server map with status ERROR. -/
theorem load_launch_failure_amended :
    ∀ (st : MCPLoader) (name : String) (command args : List String)
      (env : List (String × String)) (cwd server_id : String)
      (proc : ProcessHandle),
      proc.alive = false →
      (MCPLoader.load st name command args env cwd true server_id
          (.spawned proc)).1.find? "success" = some (.bool false) ∧
      ∃ s, mapLookup server_id
             (MCPLoader.load st name command args env cwd true server_id
               (.spawned proc)).2.servers = some s ∧
           s.status = .error ∧ s.error = some proc.stderr_text := by
  intro st name command args env cwd server_id proc halive
  simp only [MCPLoader.load, MCPLoader.start, mapLookup_insert_self, halive,
    Bool.false_eq_true, if_false, if_neg]
  refine ⟨rfl, ?_⟩
  exact ⟨_, mapLookup_insert_self _ _ _, rfl, rfl⟩

/-- A process that exited before the startup probe. -/
def c5Proc : ProcessHandle := { alive := false, stderr_text := "exit 1" }

theorem load_launch_failure_amended_witness :
    (MCPLoader.load {} "srv" ["false"] [] [] "" true "s1"
        (.spawned c5Proc)).1.find? "success" = some (.bool false) ∧
    ∃ s, mapLookup "s1"
           (MCPLoader.load {} "srv" ["false"] [] [] "" true "s1"
             (.spawned c5Proc)).2.servers = some s ∧
         s.status = .error ∧ s.error = some c5Proc.stderr_text :=
  load_launch_failure_amended {} "srv" ["false"] [] [] "" "s1" c5Proc rfl

/-- C5 (counterexample): after `load()` of a command that exits
immediately, the failed peer *is* still present in the active server
map — the claim's "no session is present" is false. -/
theorem load_failure_keeps_server_cex :
    (mapLookup "s1" (MCPLoader.load {} "srv" ["false"] [] [] "" true "s1"
        (.spawned c5Proc)).2.servers).isSome = true := by
  rfl

/-- Decoding inverts encoding on the value of every `MessageType` member. -/
theorem MessageType.ofValue_value (t : MessageType) :
    MessageType.ofValue? t.value = some t := by
  cases t <;> rfl

/-- C9. For every device message `x`, `from_json (to_json x)` succeeds and
returns a message equal to `x` in every field: type, action, payload,
message_id, timestamp, device_id and correlation_id. -/
theorem device_message_roundtrip (m : DeviceMessage) (now : Int) :
    DeviceMessage.from_json m.to_json now = some m := by
  cases m with
  | mk t action payload message_id timestamp device_id correlation_id =>
    simp only [DeviceMessage.to_json, DeviceMessage.from_json, Json.find?,
      Json.getD, mapLookup, if_pos, if_neg]
    simp [mapLookup, MessageType.ofValue_value]


/-! ### C3 -/

/-- C3: a `send_command` call on a connected session that times out
returns the Timeout error dictionary, and on *every* exit path (send
failure, timeout, response, other exception) the connection's pending
table no longer contains the call's correlation id afterwards. -/
theorem send_command_timeout_removes_pending :
    ∀ (st : CommState) (d action : String) (params : Json) (tmo : Option Int)
      (mid : String) (now : Int) (conn : DeviceConnection),
      mapLookup d st.connections = some conn →
      conn.websocket.isSome = true →
      (DeviceCommunication.send_command st d action params tmo mid now
          .timeout).1 = cmdErr "命令超时" ∧
      ∀ outcome,
        pendingEntry
          (DeviceCommunication.send_command st d action params tmo mid now
            outcome).2 d mid = none := by
  intro st d action params tmo mid now conn h hws
  rcases hwse : conn.websocket with _ | w
  · rw [hwse] at hws; simp at hws
  constructor
  · simp only [DeviceCommunication.send_command, h, hwse]
  · intro outcome
    cases outcome <;>
      simp [DeviceCommunication.send_command, h, hwse, DeviceCommunication.send,
        popPending, pendingEntry, mapLookup_insert_self, mapLookup_erase_self]

/-- The connected session of the C3 witness. -/
def c3Conn : DeviceConnection := { device_id := "d1", websocket := some 4 }

/-- A state with one connected device and no pending calls. -/
def c3St : CommState := { connections := [("d1", c3Conn)] }

theorem send_command_timeout_removes_pending_witness :
    (DeviceCommunication.send_command c3St "d1" "click" (.obj []) none "m1" 5
        .timeout).1 = cmdErr "命令超时" ∧
    pendingEntry
      (DeviceCommunication.send_command c3St "d1" "click" (.obj []) none "m1" 5
        (.respond (.obj []))).2 "d1" "m1" = none := by
  have h := send_command_timeout_removes_pending c3St "d1" "click" (.obj [])
    none "m1" 5 c3Conn rfl rfl
  exact ⟨h.1, h.2 (.respond (.obj []))⟩

/-! ### C8 -/

/-- C8: a connected device session receiving a message of type
`heartbeat` gets its connection's `last_heartbeat` set to the current
time, and the engine replies with a message of type `ack` and action
`heartbeat`. -/
theorem heartbeat_message_ack_updates_liveness :
    ∀ (st : CommState) (d : String) (raw : Json) (now : Int) (mid : String)
      (handlers : List (String × HandlerOutcome)) (conn : DeviceConnection),
      mapLookup d st.connections = some conn →
      raw.find? "type" = some (.str "heartbeat") →
      ∃ st' : CommState,
        DeviceCommunication.handle_message st d (some raw) now mid handlers =
          (some { type := .ack, action := .str "heartbeat", payload := .obj [],
                  message_id := .str mid, timestamp := .num now,
                  device_id := .str "", correlation_id := .str "" }, st') ∧
        ∃ conn', mapLookup d st'.connections = some conn' ∧
                 conn'.last_heartbeat = now := by
  intro st d raw now mid handlers conn h hty
  cases raw with
  | obj fields =>
    simp only [DeviceCommunication.handle_message, handleMessageBody, h, hty]
    exact ⟨_, rfl, _, mapLookup_insert_self _ _ _, rfl⟩
  | null => simp [Json.find?] at hty
  | bool b => simp [Json.find?] at hty
  | num n => simp [Json.find?] at hty
  | str s => simp [Json.find?] at hty
  | arr items => simp [Json.find?] at hty

/-- The connected session of the C8 witness. -/
def c8Conn : DeviceConnection := { device_id := "d1", websocket := some 2 }

/-- A state with one connected device, heartbeat pending. -/
def c8St : CommState := { connections := [("d1", c8Conn)] }

theorem heartbeat_message_ack_updates_liveness_witness :
    ∃ st' : CommState,
      DeviceCommunication.handle_message c8St "d1"
          (some (.obj [("type", .str "heartbeat"), ("device_id", .str "d1")]))
          42 "m9" [] =
        (some { type := .ack, action := .str "heartbeat", payload := .obj [],
                message_id := .str "m9", timestamp := .num 42,
                device_id := .str "", correlation_id := .str "" }, st') ∧
      ∃ conn', mapLookup "d1" st'.connections = some conn' ∧
               conn'.last_heartbeat = 42 :=
  heartbeat_message_ack_updates_liveness c8St "d1"
    (.obj [("type", .str "heartbeat"), ("device_id", .str "d1")])
    42 "m9" [] c8Conn rfl rfl

/-! ### C7 -/

/-- C7: handling an inbound string never lets an exception escape to the
read loop — whenever the body raises, `handle_message` returns `None`
with the state mutated so far — and a malformed message is dropped: a
line that is not valid JSON yields no response, and (with the handler
registry empty, as in the shipped program, which never calls
`register_handler`) valid JSON lacking the `type` discriminator field
also yields no response. -/
theorem handle_message_never_raises :
    ∀ (st : CommState) (d : String) (raw? : Option Json) (now : Int)
      (mid : String) (handlers : List (String × HandlerOutcome)),
      (∀ stE, handleMessageBody st d raw? now mid handlers = .error stE →
         DeviceCommunication.handle_message st d raw? now mid handlers =
           (none, stE)) ∧
      (raw? = none →
         (DeviceCommunication.handle_message st d raw? now mid handlers).1 =
           none) ∧
      (∀ raw, raw? = some raw → raw.find? "type" = none → handlers = [] →
         (DeviceCommunication.handle_message st d raw? now mid handlers).1 =
           none) := by
  intro st d raw? now mid handlers
  refine ⟨?_, ?_, ?_⟩
  · intro stE hE
    simp [DeviceCommunication.handle_message, hE]
  · rintro rfl
    cases hc : mapLookup d st.connections <;>
      simp [DeviceCommunication.handle_message, handleMessageBody, hc]
  · rintro raw rfl hty rfl
    cases hc : mapLookup d st.connections with
    | none => simp [DeviceCommunication.handle_message, handleMessageBody, hc]
    | some conn =>
      cases raw with
      | obj fields =>
        rcases hact : (Json.obj fields).getD "action" (Json.str "") with
          _ | b | n | a | items | flds <;>
          simp [DeviceCommunication.handle_message, handleMessageBody, hc, hty,
            DeviceMessage.from_json, handleParsed, hact, mapLookup]
      | null =>
        simp [DeviceCommunication.handle_message, handleMessageBody, hc]
      | bool b =>
        simp [DeviceCommunication.handle_message, handleMessageBody, hc]
      | num n =>
        simp [DeviceCommunication.handle_message, handleMessageBody, hc]
      | str s =>
        simp [DeviceCommunication.handle_message, handleMessageBody, hc]
      | arr items =>
        simp [DeviceCommunication.handle_message, handleMessageBody, hc]

/-- The connected session of the C7 witness. -/
def c7Conn : DeviceConnection := { device_id := "d1", websocket := some 9 }

/-- A state with one connected device. -/
def c7St : CommState := { connections := [("d1", c7Conn)] }

theorem handle_message_never_raises_witness :
    DeviceCommunication.handle_message c7St "d1" none 5 "m" [] =
      (none, c7St) ∧
    (DeviceCommunication.handle_message c7St "d1" none 5 "m" []).1 = none ∧
    (DeviceCommunication.handle_message c7St "d1"
        (some (.obj [("action", .str "x")])) 5 "m" []).1 = none :=
  ⟨(handle_message_never_raises c7St "d1" none 5 "m" []).1 c7St rfl,
   (handle_message_never_raises c7St "d1" none 5 "m" []).2.1 rfl,
   (handle_message_never_raises c7St "d1"
       (some (.obj [("action", .str "x")])) 5 "m" []).2.2
     (.obj [("action", .str "x")]) rfl rfl rfl⟩

/-! ### C10 -/

theorem pendingLookup_nil (j : Json) : pendingLookup j [] = none := by
  cases j <;> rfl

/-- `handleParsed` on a connection with an empty pending table never
touches the future store. -/
theorem handleParsed_futures_of_empty_pending
    (st : CommState) (d : String) (conn : DeviceConnection)
    (message : DeviceMessage) (now : Int) (mid : String)
    (handlers : List (String × HandlerOutcome))
    (h : conn.pending_requests = []) :
    (exceptState (handleParsed st d conn message now mid handlers)).futures =
      st.futures := by
  unfold handleParsed
  split
  · simp [exceptState, putConn]
  · simp [exceptState, putConn, h, pendingLookup_nil]
  · simp [exceptState, putConn]
  · simp [exceptState, putConn]
  · simp [exceptState, putConn]
  · split
    · split <;> simp [exceptState, putConn]
    · simp [exceptState, putConn]

/-- The second component of `handle_message` is the state of the body,
whether it returned or raised. -/
theorem handle_message_snd (st : CommState) (d : String) (raw? : Option Json)
    (now : Int) (mid : String) (handlers : List (String × HandlerOutcome)) :
    (DeviceCommunication.handle_message st d raw? now mid handlers).2 =
      exceptState (handleMessageBody st d raw? now mid handlers) := by
  cases hb : handleMessageBody st d raw? now mid handlers with
  | ok r => simp [DeviceCommunication.handle_message, exceptState, hb]
  | error s => simp [DeviceCommunication.handle_message, exceptState, hb]

/-- `handle_message` on a device whose connection has an empty pending
table never touches the future store, whatever the inbound line is. -/
theorem handle_message_futures_of_empty_pending
    (st : CommState) (d : String) (raw? : Option Json) (now : Int)
    (mid : String) (handlers : List (String × HandlerOutcome))
    (conn : DeviceConnection)
    (hc : mapLookup d st.connections = some conn)
    (hp : conn.pending_requests = []) :
    (DeviceCommunication.handle_message st d raw? now mid handlers).2.futures =
      st.futures := by
  rw [handle_message_snd]
  unfold handleMessageBody
  rw [hc]
  rcases raw? with _ | raw
  · rfl
  · cases raw with
    | obj fields =>
      simp only []
      split
      · split <;> rfl
      · rfl
      · split
        · split
          · exact handleParsed_futures_of_empty_pending _ _ _ _ _ _ _ hp
          · rfl
        · split
          · rfl
          · exact handleParsed_futures_of_empty_pending _ _ _ _ _ _ _ hp
    | null => rfl
    | bool b => rfl
    | num n => rfl
    | str s => rfl
    | arr items => rfl

/-- C10: `connect` on a device id that already has a connection replaces
the `DeviceConnection` wholesale — the new connection has zeroed
statistics counters and an empty pending table — without closing the old
websocket (the closed-socket set is unchanged), and an inbound line
processed for that device afterwards (in particular a response bearing
one of the old pending correlation ids) leaves the future store
unchanged, so the old waiters only complete via their own timeouts. -/
theorem connect_replaces_connection_wholesale :
    ∀ (st : CommState) (d : String) (ws : Nat) (now : Int)
      (old : DeviceConnection),
      mapLookup d st.connections = some old →
      (∃ fresh,
        mapLookup d (DeviceCommunication.connect st d ws now).2.connections =
          some fresh ∧
        fresh.websocket = some ws ∧ fresh.messages_sent = 0 ∧
        fresh.messages_received = 0 ∧ fresh.commands_executed = 0 ∧
        fresh.errors = 0 ∧ fresh.pending_requests = []) ∧
      (DeviceCommunication.connect st d ws now).2.closed_sockets =
        st.closed_sockets ∧
      (DeviceCommunication.connect st d ws now).2.futures = st.futures ∧
      (∀ (raw? : Option Json) (now2 : Int) (mid2 : String)
         (handlers : List (String × HandlerOutcome)),
        (DeviceCommunication.handle_message
            (DeviceCommunication.connect st d ws now).2 d raw? now2 mid2
            handlers).2.futures = st.futures) := by
  intro st d ws now old hold
  refine ⟨⟨{ device_id := d, websocket := some ws, connected_at := now,
             last_heartbeat := now, last_message := now },
           mapLookup_insert_self _ _ _, rfl, rfl, rfl, rfl, rfl, rfl⟩,
          rfl, rfl, ?_⟩
  · intro raw? now2 mid2 handlers
    have hfresh := mapLookup_insert_self d
      ({ device_id := d, websocket := some ws, connected_at := now,
         last_heartbeat := now, last_message := now } : DeviceConnection)
      st.connections
    exact handle_message_futures_of_empty_pending _ _ _ _ _ _ _ hfresh rfl

/-- The replaced connection of the C10 witness: five sent messages and a
pending call awaiting future 0. -/
def c10Old : DeviceConnection :=
  { device_id := "d1", websocket := some 1, messages_sent := 5,
    pending_requests := [("mOld", 0)] }

/-- A state with one connected device and one pending call. -/
def c10St : CommState :=
  { connections := [("d1", c10Old)], futures := [(0, .pending)],
    next_future := 1 }

theorem connect_replaces_connection_wholesale_witness :
    (∃ fresh,
      mapLookup "d1"
          (DeviceCommunication.connect c10St "d1" 2 50).2.connections =
        some fresh ∧
      fresh.websocket = some 2 ∧ fresh.messages_sent = 0 ∧
      fresh.messages_received = 0 ∧ fresh.commands_executed = 0 ∧
      fresh.errors = 0 ∧ fresh.pending_requests = []) ∧
    (DeviceCommunication.connect c10St "d1" 2 50).2.closed_sockets =
      c10St.closed_sockets ∧
    (DeviceCommunication.connect c10St "d1" 2 50).2.futures = c10St.futures ∧
    (DeviceCommunication.handle_message
        (DeviceCommunication.connect c10St "d1" 2 50).2 "d1"
        (some (.obj [("type", .str "response"),
                     ("correlation_id", .str "mOld")]))
        51 "m2" []).2.futures = c10St.futures := by
  have h := connect_replaces_connection_wholesale c10St "d1" 2 50 c10Old rfl
  exact ⟨h.1, h.2.1, h.2.2.1,
    h.2.2.2 (some (.obj [("type", .str "response"),
      ("correlation_id", .str "mOld")])) 51 "m2" []⟩

/-! ### C1 -/

/-- C1 (amended): request-id assignment as implemented.
(a) `MCPLoader._send_request` draws ids from the loader-wide,
monotonically increasing `_request_id` counter: every send bumps the
counter by one and stamps the new value into the written request, so the
ids the loader issues (across all its sessions, hence within each
session) are unique and never reused.
(b) `MCPManager._send_request` stamps the constant id `1` into every
request.
(c) A loader call returns the parse of the next stdout line as its
response, whatever id that line carries.
(d) A device-session response resolves a waiter future only when its
`correlation_id` is an entry of the connection's pending table, and then
it resolves exactly that entry's future with the response payload;
(e) a response whose correlation id is not in the table leaves the
future store unchanged. -/
theorem correlation_id_assignment_amended :
    (∀ (st : MCPLoader) (sid method : String) (params : Json)
       (srv : MCPServerInstance) (proc : ProcessHandle),
       mapLookup sid st.servers = some srv → srv.process = some proc →
       (st._send_request sid method params).2.request_id = st.request_id + 1 ∧
       (proc.alive = true →
         (serverProc (st._send_request sid method params).2 sid).map
             ProcessHandle.stdin_writes =
           some (proc.stdin_writes ++
             [MCPRequest.to_json
               { id := some ((st.request_id + 1 : Nat) : Int),
                 method := method, params := params }]))) ∧
    (∀ (st : MCPManager) (sid method : String) (params : Json)
       (srv : ManagerMCPServer) (proc : ProcessHandle),
       mapLookup sid st.servers = some srv → srv.process = some proc →
       proc.alive = true →
       (serverProcM (st._send_request sid method params).2 sid).map
           ProcessHandle.stdin_writes =
         some (proc.stdin_writes ++
           [.obj [("jsonrpc", .str "2.0"), ("id", .num 1),
                  ("method", .str method), ("params", params)]])) ∧
    (∀ (st : MCPLoader) (sid method : String) (params : Json)
       (srv : MCPServerInstance) (proc : ProcessHandle) (j : Json)
       (rest : List (Option Json)) (r : MCPResponse),
       mapLookup sid st.servers = some srv → srv.process = some proc →
       proc.alive = true → proc.stdout_lines = some j :: rest →
       MCPResponse.from_json j = some r →
       (st._send_request sid method params).1 = some r) ∧
    (∀ (st : CommState) (d : String) (conn : DeviceConnection)
       (message : DeviceMessage) (now : Int) (mid : String)
       (handlers : List (String × HandlerOutcome)) (fid : Nat),
       message.type = .response →
       pendingLookup message.correlation_id conn.pending_requests = some fid →
       mapLookup fid st.futures = some .pending →
       exceptOk (handleParsed st d conn message now mid handlers) = true ∧
       exceptResp (handleParsed st d conn message now mid handlers) = none ∧
       mapLookup fid
           (exceptState (handleParsed st d conn message now mid
             handlers)).futures =
         some (.resolved message.payload)) ∧
    (∀ (st : CommState) (d : String) (conn : DeviceConnection)
       (message : DeviceMessage) (now : Int) (mid : String)
       (handlers : List (String × HandlerOutcome)),
       message.type = .response →
       pendingLookup message.correlation_id conn.pending_requests = none →
       exceptOk (handleParsed st d conn message now mid handlers) = true ∧
       exceptResp (handleParsed st d conn message now mid handlers) = none ∧
       (exceptState (handleParsed st d conn message now mid
         handlers)).futures = st.futures) := by
  refine ⟨?_, ?_, ?_, ?_, ?_⟩
  · intro st sid method params srv proc h hp
    constructor
    · simp only [MCPLoader._send_request, h, hp]
      cases halive : proc.alive
      · simp
      · simp only [if_true]
        cases hl : proc.stdout_lines with
        | nil => simp [MCPLoader.putProc]
        | cons l rest =>
          cases l with
          | none => simp [MCPLoader.putProc]
          | some j =>
            cases hr : MCPResponse.from_json j <;> simp [MCPLoader.putProc, hr]
    · intro halive
      simp only [MCPLoader._send_request, h, hp, halive, if_true]
      cases hl : proc.stdout_lines with
      | nil =>
        simp [serverProc, MCPLoader.putProc, mapLookup_insert_self]
      | cons l rest =>
        cases l with
        | none =>
          simp [serverProc, MCPLoader.putProc, mapLookup_insert_self]
        | some j =>
          cases hr : MCPResponse.from_json j <;>
            simp [serverProc, MCPLoader.putProc, mapLookup_insert_self, hr]
  · intro st sid method params srv proc h hp halive
    simp only [MCPManager._send_request, h, hp, halive, if_true]
    cases hl : proc.stdout_lines with
    | nil => simp [serverProcM, mapLookup_insert_self]
    | cons l rest => simp [serverProcM, mapLookup_insert_self]
  · intro st sid method params srv proc j rest r h hp halive hl hr
    simp [MCPLoader._send_request, h, hp, halive, hl, hr]
  · intro st d conn message now mid handlers fid hty hpl hf
    refine ⟨?_, ?_, ?_⟩
    · simp only [handleParsed, hty, hpl, hf, exceptOk]
    · simp only [handleParsed, hty, hpl, hf, exceptResp]
    · simp only [handleParsed, hty, hpl, hf, exceptState]
      simp [mapLookup_insert_self]
  · intro st d conn message now mid handlers hty hpl
    refine ⟨?_, ?_, ?_⟩
    · simp only [handleParsed, hty, hpl, exceptOk]
    · simp only [handleParsed, hty, hpl, exceptResp]
    · simp only [handleParsed, hty, hpl, exceptState, putConn]

/-- Stdout of the C1 loader example: one response line carrying id 99. -/
def c1LoaderProc : ProcessHandle :=
  { alive := true,
    stdout_lines := [some (.obj [("jsonrpc", .str "2.0"), ("id", .num 99),
                                 ("result", .bool true)])] }

/-- A loader with one running server whose peer answers with id 99. -/
def c1Loader : MCPLoader :=
  { servers := [("s", { id := "s", name := "srv", command := ["node"],
                        status := .running, process := some c1LoaderProc })] }

/-- A manager process with two pending stdout lines. -/
def c1MgrProc : ProcessHandle :=
  { alive := true, stdout_lines := [some (.obj []), some (.obj [])] }

/-- A manager with one running server. -/
def c1Mgr : MCPManager :=
  { servers := [("s", { name := "srv", command := ["node"],
                        process := some c1MgrProc })] }

/-- C1 (counterexample): on one manager session, two consecutive calls
both write requests with correlation id 1 — the ids collide and are
reused, not drawn from a monotonically increasing per-session counter —
and a loader call that issues id 1 (the counter was 0) returns the next
stdout line, a response carrying id 99, as its own response. -/
theorem correlation_id_assignment_cex :
    ((serverProcM ((c1Mgr._send_request "s" "tools/list"
          (.obj [])).2._send_request "s" "tools/call" (.obj [])).2 "s").map
        ProcessHandle.stdin_writes =
      some [.obj [("jsonrpc", .str "2.0"), ("id", .num 1),
                  ("method", .str "tools/list"), ("params", .obj [])],
            .obj [("jsonrpc", .str "2.0"), ("id", .num 1),
                  ("method", .str "tools/call"), ("params", .obj [])]]) ∧
    ((c1Loader._send_request "s" "ping" (.obj [])).2.request_id = 1) ∧
    ((c1Loader._send_request "s" "ping" (.obj [])).1 =
      some { jsonrpc := .str "2.0", id := .num 99, result := .bool true,
             error := .null }) := by
  exact ⟨rfl, rfl, rfl⟩

/-- The device-side states of the C1 witness. -/
def c1Conn : DeviceConnection :=
  { device_id := "d2", websocket := some 5, pending_requests := [("r1", 3)] }

/-- A device state with one pending call awaiting future 3. -/
def c1CommSt : CommState :=
  { connections := [("d2", c1Conn)], futures := [(3, .pending)],
    next_future := 4 }

/-- A response message matching the pending entry. -/
def c1RespMsg : DeviceMessage :=
  { type := .response, action := .str "", payload := .bool true,
    message_id := .str "x", timestamp := .num 0, device_id := .str "",
    correlation_id := .str "r1" }

/-- A response message matching no pending entry. -/
def c1RespMsgMiss : DeviceMessage :=
  { type := .response, action := .str "", payload := .bool true,
    message_id := .str "x", timestamp := .num 0, device_id := .str "",
    correlation_id := .str "zz" }

theorem correlation_id_assignment_amended_witness :
    ((MCPLoader._send_request c1Loader "s" "ping" (.obj [])).2.request_id =
       c1Loader.request_id + 1) ∧
    ((serverProc (MCPLoader._send_request c1Loader "s" "ping" (.obj [])).2
          "s").map ProcessHandle.stdin_writes =
       some (c1LoaderProc.stdin_writes ++
         [MCPRequest.to_json
           { id := some ((c1Loader.request_id + 1 : Nat) : Int),
             method := "ping", params := .obj [] }])) ∧
    ((serverProcM (MCPManager._send_request c1Mgr "s" "tools/list"
          (.obj [])).2 "s").map ProcessHandle.stdin_writes =
       some (c1MgrProc.stdin_writes ++
         [.obj [("jsonrpc", .str "2.0"), ("id", .num 1),
                ("method", .str "tools/list"), ("params", .obj [])]])) ∧
    ((MCPLoader._send_request c1Loader "s" "ping" (.obj [])).1 =
       some { jsonrpc := .str "2.0", id := .num 99, result := .bool true,
              error := .null }) ∧
    (exceptOk (handleParsed c1CommSt "d2" c1Conn c1RespMsg 0 "m" []) = true ∧
     exceptResp (handleParsed c1CommSt "d2" c1Conn c1RespMsg 0 "m" []) =
       none ∧
     mapLookup 3
         (exceptState (handleParsed c1CommSt "d2" c1Conn c1RespMsg 0 "m"
           [])).futures =
       some (.resolved c1RespMsg.payload)) ∧
    (exceptOk (handleParsed c1CommSt "d2" c1Conn c1RespMsgMiss 0 "m" []) =
       true ∧
     exceptResp (handleParsed c1CommSt "d2" c1Conn c1RespMsgMiss 0 "m" []) =
       none ∧
     (exceptState (handleParsed c1CommSt "d2" c1Conn c1RespMsgMiss 0 "m"
       [])).futures = c1CommSt.futures) := by
  obtain ⟨ha, hb, hc, hd, he⟩ := correlation_id_assignment_amended
  refine ⟨?_, ?_, ?_, ?_, ?_, ?_⟩
  · exact (ha c1Loader "s" "ping" (.obj []) _ c1LoaderProc rfl rfl).1
  · exact (ha c1Loader "s" "ping" (.obj []) _ c1LoaderProc rfl rfl).2 rfl
  · exact hb c1Mgr "s" "tools/list" (.obj []) _ c1MgrProc rfl rfl rfl
  · exact hc c1Loader "s" "ping" (.obj []) _ c1LoaderProc _ _
      { jsonrpc := .str "2.0", id := .num 99, result := .bool true,
        error := .null } rfl rfl rfl rfl rfl
  · exact hd c1CommSt "d2" c1Conn c1RespMsg 0 "m" [] 3 rfl rfl rfl
  · exact he c1CommSt "d2" c1Conn c1RespMsgMiss 0 "m" [] rfl rfl

/-! ### Heartbeat sweep lemmas (C6, C4) -/

theorem send_heartbeat_timeout (st : CommState) (d : String) (m : DeviceMessage)
    (ok : Bool) (now : Int) :
    (DeviceCommunication.send st d m ok now).2.heartbeat_timeout =
      st.heartbeat_timeout := by
  unfold DeviceCommunication.send
  split
  · rfl
  · split
    · rfl
    · split <;> rfl

theorem disconnect_heartbeat_timeout (st : CommState) (d : String) :
    (DeviceCommunication.disconnect st d).2.heartbeat_timeout =
      st.heartbeat_timeout := by
  unfold DeviceCommunication.disconnect
  split
  · rfl
  · split <;> rfl

theorem send_registry_offline (st : CommState) (d : String) (m : DeviceMessage)
    (ok : Bool) (now : Int) :
    (DeviceCommunication.send st d m ok now).2.registry_offline =
      st.registry_offline := by
  unfold DeviceCommunication.send
  split
  · rfl
  · split
    · rfl
    · split <;> rfl

theorem send_closed_sockets (st : CommState) (d : String) (m : DeviceMessage)
    (ok : Bool) (now : Int) :
    (DeviceCommunication.send st d m ok now).2.closed_sockets =
      st.closed_sockets := by
  unfold DeviceCommunication.send
  split
  · rfl
  · split
    · rfl
    · split <;> rfl

theorem disconnect_offline_mono (st : CommState) (d x : String)
    (h : x ∈ st.registry_offline) :
    x ∈ (DeviceCommunication.disconnect st d).2.registry_offline := by
  unfold DeviceCommunication.disconnect
  split
  · exact h
  · split <;> simp [List.mem_cons, h]

theorem disconnect_closed_mono (st : CommState) (d : String) (x : Nat)
    (h : x ∈ st.closed_sockets) :
    x ∈ (DeviceCommunication.disconnect st d).2.closed_sockets := by
  unfold DeviceCommunication.disconnect
  split
  · exact h
  · split <;> simp [List.mem_cons, h]

theorem send_lookup_ne (st : CommState) (d' : String) (m : DeviceMessage)
    (ok : Bool) (now : Int) (d : String) (hne : d' ≠ d) :
    mapLookup d (DeviceCommunication.send st d' m ok now).2.connections =
      mapLookup d st.connections := by
  unfold DeviceCommunication.send
  split
  · rfl
  · split
    · rfl
    · split <;> simp [mapLookup_insert_ne _ _ hne]

theorem disconnect_lookup_ne (st : CommState) (d' d : String) (hne : d' ≠ d) :
    mapLookup d (DeviceCommunication.disconnect st d').2.connections =
      mapLookup d st.connections := by
  unfold DeviceCommunication.disconnect
  split
  · rfl
  · split <;> simp [mapLookup_erase_ne _ hne]

theorem send_lookup_none (st : CommState) (d' : String) (m : DeviceMessage)
    (ok : Bool) (now : Int) (d : String)
    (h : mapLookup d st.connections = none) :
    mapLookup d (DeviceCommunication.send st d' m ok now).2.connections =
      none := by
  by_cases hd : d' = d
  · subst hd
    simp [DeviceCommunication.send, h]
  · rw [send_lookup_ne st d' m ok now d hd, h]

theorem disconnect_lookup_none (st : CommState) (d' d : String)
    (h : mapLookup d st.connections = none) :
    mapLookup d (DeviceCommunication.disconnect st d').2.connections = none := by
  by_cases hd : d' = d
  · subst hd
    unfold DeviceCommunication.disconnect
    split
    · exact h
    · split <;> simp [mapLookup_erase_self]
  · rw [disconnect_lookup_ne st d' d hd, h]

theorem disconnect_effects (st : CommState) (d : String)
    (conn : DeviceConnection) (h : mapLookup d st.connections = some conn) :
    mapLookup d (DeviceCommunication.disconnect st d).2.connections = none ∧
    d ∈ (DeviceCommunication.disconnect st d).2.registry_offline ∧
    ∀ w, conn.websocket = some w →
      w ∈ (DeviceCommunication.disconnect st d).2.closed_sockets := by
  simp only [DeviceCommunication.disconnect, h]
  cases hws : conn.websocket <;> simp [mapLookup_erase_self, hws]

theorem heartbeatStep_stale (now : Int) (wok : String → Bool) (st : CommState)
    (item : String × DeviceConnection)
    (h : item.2.is_alive now st.heartbeat_timeout = false) :
    heartbeatStep now wok st item =
      (DeviceCommunication.disconnect st item.1).2 := by
  unfold heartbeatStep
  rw [h]
  simp

theorem heartbeatStep_alive (now : Int) (wok : String → Bool) (st : CommState)
    (item : String × DeviceConnection)
    (h : item.2.is_alive now st.heartbeat_timeout = true) :
    heartbeatStep now wok st item =
      (DeviceCommunication.send st item.1
        { type := .heartbeat, action := .str "", payload := .obj [],
          message_id := .str "", timestamp := .num now,
          device_id := .str "", correlation_id := .str "" }
        (wok item.1) now).2 := by
  unfold heartbeatStep
  rw [h]
  simp

theorem heartbeatStep_heartbeat_timeout (now : Int) (wok : String → Bool)
    (st : CommState) (item : String × DeviceConnection) :
    (heartbeatStep now wok st item).heartbeat_timeout = st.heartbeat_timeout := by
  unfold heartbeatStep
  split
  · exact send_heartbeat_timeout _ _ _ _ _
  · exact disconnect_heartbeat_timeout _ _

theorem heartbeatStep_lookup_ne (now : Int) (wok : String → Bool)
    (st : CommState) (item : String × DeviceConnection) (d : String)
    (hne : item.1 ≠ d) :
    mapLookup d (heartbeatStep now wok st item).connections =
      mapLookup d st.connections := by
  unfold heartbeatStep
  split
  · exact send_lookup_ne _ _ _ _ _ _ hne
  · exact disconnect_lookup_ne _ _ _ hne

theorem heartbeatStep_lookup_none (now : Int) (wok : String → Bool)
    (st : CommState) (item : String × DeviceConnection) (d : String)
    (h : mapLookup d st.connections = none) :
    mapLookup d (heartbeatStep now wok st item).connections = none := by
  unfold heartbeatStep
  split
  · exact send_lookup_none _ _ _ _ _ _ h
  · exact disconnect_lookup_none _ _ _ h

theorem heartbeatStep_offline_mono (now : Int) (wok : String → Bool)
    (st : CommState) (item : String × DeviceConnection) (x : String)
    (h : x ∈ st.registry_offline) :
    x ∈ (heartbeatStep now wok st item).registry_offline := by
  unfold heartbeatStep
  split
  · rw [send_registry_offline]; exact h
  · exact disconnect_offline_mono _ _ _ h

theorem heartbeatStep_closed_mono (now : Int) (wok : String → Bool)
    (st : CommState) (item : String × DeviceConnection) (x : Nat)
    (h : x ∈ st.closed_sockets) :
    x ∈ (heartbeatStep now wok st item).closed_sockets := by
  unfold heartbeatStep
  split
  · rw [send_closed_sockets]; exact h
  · exact disconnect_closed_mono _ _ _ h

theorem foldl_step_lookup_none (now : Int) (wok : String → Bool) (d : String) :
    ∀ (l : List (String × DeviceConnection)) (st : CommState),
      mapLookup d st.connections = none →
      mapLookup d (l.foldl (heartbeatStep now wok) st).connections = none := by
  intro l
  induction l with
  | nil => intro st h; exact h
  | cons p rest ih =>
    intro st h
    exact ih _ (heartbeatStep_lookup_none now wok st p d h)

theorem foldl_step_offline_mono (now : Int) (wok : String → Bool) (x : String) :
    ∀ (l : List (String × DeviceConnection)) (st : CommState),
      x ∈ st.registry_offline →
      x ∈ (l.foldl (heartbeatStep now wok) st).registry_offline := by
  intro l
  induction l with
  | nil => intro st h; exact h
  | cons p rest ih =>
    intro st h
    exact ih _ (heartbeatStep_offline_mono now wok st p x h)

theorem foldl_step_closed_mono (now : Int) (wok : String → Bool) (x : Nat) :
    ∀ (l : List (String × DeviceConnection)) (st : CommState),
      x ∈ st.closed_sockets →
      x ∈ (l.foldl (heartbeatStep now wok) st).closed_sockets := by
  intro l
  induction l with
  | nil => intro st h; exact h
  | cons p rest ih =>
    intro st h
    exact ih _ (heartbeatStep_closed_mono now wok st p x h)

theorem foldl_step_prefix (now : Int) (wok : String → Bool) (d : String) :
    ∀ (l : List (String × DeviceConnection)) (st : CommState),
      (∀ p ∈ l, p.1 ≠ d) →
      mapLookup d (l.foldl (heartbeatStep now wok) st).connections =
        mapLookup d st.connections ∧
      (l.foldl (heartbeatStep now wok) st).heartbeat_timeout =
        st.heartbeat_timeout := by
  intro l
  induction l with
  | nil => intro st _; exact ⟨rfl, rfl⟩
  | cons p rest ih =>
    intro st hne
    have hp : p.1 ≠ d := hne p (List.mem_cons_self p rest)
    have hrest : ∀ q ∈ rest, q.1 ≠ d := fun q hq => hne q (List.mem_cons_of_mem p hq)
    obtain ⟨ih1, ih2⟩ := ih (heartbeatStep now wok st p) hrest
    refine ⟨?_, ?_⟩
    · rw [List.foldl_cons] at *
      rw [ih1, heartbeatStep_lookup_ne now wok st p d hp]
    · rw [List.foldl_cons, ih2, heartbeatStep_heartbeat_timeout]

theorem mapLookup_split {κ α : Type} [DecidableEq κ] {k : κ}
    {m : List (κ × α)} {v : α} (h : mapLookup k m = some v) :
    ∃ l₁ l₂, m = l₁ ++ (k, v) :: l₂ ∧ ∀ p ∈ l₁, p.1 ≠ k := by
  induction m with
  | nil => simp [mapLookup] at h
  | cons p rest ih =>
    obtain ⟨pk, pv⟩ := p
    by_cases hp : pk = k
    · subst hp
      have hv : pv = v := by simpa [mapLookup] using h
      subst hv
      exact ⟨[], rest, rfl, by simp⟩
    · have h' : mapLookup k rest = some v := by simpa [mapLookup, hp] using h
      obtain ⟨l₁, l₂, he, hne⟩ := ih h'
      refine ⟨(pk, pv) :: l₁, l₂, by rw [he, List.cons_append], ?_⟩
      intro q hq
      rcases List.mem_cons.mp hq with hq1 | hq2
      · subst hq1; exact hp
      · exact hne q hq2

/-! ### C6 -/

/-- C6: at a liveness sweep, every socket session whose last confirmed
heartbeat is older than `heartbeat_timeout` seconds is disconnected: the
monitor removes it from the active connection set, reports the offline
transition to the external registry collaborator, and closes its
websocket. -/
theorem heartbeat_sweep_evicts_stale :
    ∀ (st : CommState) (now : Int) (wok : String → Bool) (d : String)
      (conn : DeviceConnection),
      mapLookup d st.connections = some conn →
      st.heartbeat_timeout < now - conn.last_heartbeat →
      mapLookup d (heartbeatSweep st now wok).connections = none ∧
      d ∈ (heartbeatSweep st now wok).registry_offline ∧
      ∀ w, conn.websocket = some w →
        w ∈ (heartbeatSweep st now wok).closed_sockets := by
  intro st now wok d conn h hstale
  obtain ⟨l₁, l₂, he, hne⟩ := mapLookup_split h
  unfold heartbeatSweep
  rw [he, List.foldl_append, List.foldl_cons]
  obtain ⟨hl, ht⟩ := foldl_step_prefix now wok d l₁ st hne
  have hlook : mapLookup d (l₁.foldl (heartbeatStep now wok) st).connections =
      some conn := by rw [hl, h]
  have halive : conn.is_alive now
      (l₁.foldl (heartbeatStep now wok) st).heartbeat_timeout = false := by
    rw [ht]
    unfold DeviceConnection.is_alive
    simp only [decide_eq_false_iff_not]
    omega
  rw [heartbeatStep_stale now wok _ (d, conn) halive]
  obtain ⟨he1, he2, he3⟩ :=
    disconnect_effects (l₁.foldl (heartbeatStep now wok) st) d conn hlook
  refine ⟨?_, ?_, ?_⟩
  · exact foldl_step_lookup_none now wok d l₂ _ he1
  · exact foldl_step_offline_mono now wok d l₂ _ he2
  · intro w hw
    exact foldl_step_closed_mono now wok w l₂ _ (he3 w hw)

/-- The stale connection of the C6 witness (last heartbeat at 0, swept at
100 with timeout 60). -/
def c6Conn : DeviceConnection :=
  { device_id := "d6", websocket := some 11, last_heartbeat := 0 }

/-- A state with one stale device. -/
def c6St : CommState := { connections := [("d6", c6Conn)] }

theorem heartbeat_sweep_evicts_stale_witness :
    mapLookup "d6" (heartbeatSweep c6St 100 (fun _ => true)).connections =
      none ∧
    "d6" ∈ (heartbeatSweep c6St 100 (fun _ => true)).registry_offline ∧
    11 ∈ (heartbeatSweep c6St 100 (fun _ => true)).closed_sockets := by
  have h := heartbeat_sweep_evicts_stale c6St 100 (fun _ => true) "d6" c6Conn
    rfl (by decide)
  exact ⟨h.1, h.2.1, h.2.2 11 rfl⟩

/-! ### C4 -/

theorem send_lookup_self (st : CommState) (d : String) (m : DeviceMessage)
    (ok : Bool) (now : Int) (conn : DeviceConnection)
    (h : mapLookup d st.connections = some conn) :
    ∃ conn',
      mapLookup d (DeviceCommunication.send st d m ok now).2.connections =
        some conn' ∧
      conn'.status = conn.status ∧
      conn'.last_heartbeat = conn.last_heartbeat ∧
      conn'.websocket = conn.websocket := by
  obtain ⟨dev, ws, ca, lh, lm, ms, mr, ce, er, sta, pr⟩ := conn
  simp only [DeviceCommunication.send, h]
  cases ws with
  | none => exact ⟨_, h, rfl, rfl, rfl⟩
  | some w =>
    cases ok with
    | true => exact ⟨_, mapLookup_insert_self _ _ _, rfl, rfl, rfl⟩
    | false => exact ⟨_, mapLookup_insert_self _ _ _, rfl, rfl, rfl⟩

/-- C4 (amended): the engine has no DEGRADED state.  At a liveness sweep
a socket session whose heartbeat window has elapsed
(`now - last_heartbeat ≥ heartbeat_timeout`) is closed immediately —
removed from the active set and reported offline at that first failed
window — while a session whose window has not elapsed stays connected
(same status, same last-heartbeat, same socket). -/
theorem heartbeat_window_amended :
    ∀ (st : CommState) (now : Int) (wok : String → Bool) (d : String)
      (conn : DeviceConnection),
      (st.connections.map Prod.fst).Nodup →
      mapLookup d st.connections = some conn →
      (st.heartbeat_timeout ≤ now - conn.last_heartbeat →
        mapLookup d (heartbeatSweep st now wok).connections = none ∧
        d ∈ (heartbeatSweep st now wok).registry_offline) ∧
      (now - conn.last_heartbeat < st.heartbeat_timeout →
        ∃ conn',
          mapLookup d (heartbeatSweep st now wok).connections = some conn' ∧
          conn'.status = conn.status ∧
          conn'.last_heartbeat = conn.last_heartbeat ∧
          conn'.websocket = conn.websocket) := by
  intro st now wok d conn hnodup h
  obtain ⟨l₁, l₂, he, hne⟩ := mapLookup_split h
  have hl₂ : ∀ p ∈ l₂, p.1 ≠ d := by
    rw [he] at hnodup
    simp only [List.map_append, List.map_cons] at hnodup
    have h2 := (List.nodup_cons.mp hnodup.of_append_right).1
    intro p hp hcontra
    exact h2 (hcontra ▸ List.mem_map_of_mem Prod.fst hp)
  obtain ⟨hl, ht⟩ := foldl_step_prefix now wok d l₁ st hne
  have hlook : mapLookup d (l₁.foldl (heartbeatStep now wok) st).connections =
      some conn := by rw [hl, h]
  constructor
  · intro hstale
    unfold heartbeatSweep
    rw [he, List.foldl_append, List.foldl_cons]
    have halive : conn.is_alive now
        (l₁.foldl (heartbeatStep now wok) st).heartbeat_timeout = false := by
      rw [ht]
      unfold DeviceConnection.is_alive
      simp only [decide_eq_false_iff_not]
      omega
    rw [heartbeatStep_stale now wok _ (d, conn) halive]
    obtain ⟨he1, he2, _⟩ :=
      disconnect_effects (l₁.foldl (heartbeatStep now wok) st) d conn hlook
    exact ⟨foldl_step_lookup_none now wok d l₂ _ he1,
           foldl_step_offline_mono now wok d l₂ _ he2⟩
  · intro hfresh
    unfold heartbeatSweep
    rw [he, List.foldl_append, List.foldl_cons]
    have halive : conn.is_alive now
        (l₁.foldl (heartbeatStep now wok) st).heartbeat_timeout = true := by
      rw [ht]
      unfold DeviceConnection.is_alive
      simp only [decide_eq_true_eq]
      omega
    rw [heartbeatStep_alive now wok _ (d, conn) halive]
    obtain ⟨conn', hc1, hc2, hc3, hc4⟩ :=
      send_lookup_self (l₁.foldl (heartbeatStep now wok) st) d _ (wok d) now
        conn hlook
    obtain ⟨hl2, _⟩ := foldl_step_prefix now wok d l₂ _ hl₂
    exact ⟨conn', by rw [hl2, hc1], hc2, hc3, hc4⟩

/-- The stale connection of the C4 counterexample (one missed window:
last heartbeat at 0, swept at 100 with timeout 60). -/
def c4Conn : DeviceConnection :=
  { device_id := "d4", websocket := some 3, last_heartbeat := 0 }

/-- A state with one stale device. -/
def c4St : CommState := { connections := [("d4", c4Conn)] }

/-- C4 (counterexample): a single failed liveness window does *not* put
the session into a DEGRADED state — the very first sweep that finds the
heartbeat window elapsed disconnects the session outright: it is removed
from the active set and reported offline, with no intermediate state and
no second-window grace. -/
theorem single_missed_window_closes_cex :
    mapLookup "d4" (heartbeatSweep c4St 100 (fun _ => true)).connections =
      none ∧
    "d4" ∈ (heartbeatSweep c4St 100 (fun _ => true)).registry_offline := by
  constructor
  · rfl
  · simp [heartbeatSweep, heartbeatStep, c4St, c4Conn,
      DeviceConnection.is_alive, DeviceCommunication.disconnect, mapLookup]

/-- The two connections of the C4 witness: `a` missed its window, `b`
did not. -/
def c4ConnStale : DeviceConnection :=
  { device_id := "a", websocket := some 1, last_heartbeat := 0 }

/-- The fresh connection of the C4 witness. -/
def c4ConnFresh : DeviceConnection :=
  { device_id := "b", websocket := some 2, last_heartbeat := 90 }

/-- A state with one stale and one fresh device. -/
def c4WSt : CommState :=
  { connections := [("a", c4ConnStale), ("b", c4ConnFresh)] }

theorem heartbeat_window_amended_witness :
    (mapLookup "a" (heartbeatSweep c4WSt 100 (fun _ => true)).connections =
       none ∧
     "a" ∈ (heartbeatSweep c4WSt 100 (fun _ => true)).registry_offline) ∧
    (∃ conn',
       mapLookup "b" (heartbeatSweep c4WSt 100 (fun _ => true)).connections =
         some conn' ∧
       conn'.status = c4ConnFresh.status ∧
       conn'.last_heartbeat = c4ConnFresh.last_heartbeat ∧
       conn'.websocket = c4ConnFresh.websocket) := by
  refine ⟨?_, ?_⟩
  · exact (heartbeat_window_amended c4WSt 100 (fun _ => true) "a" c4ConnStale
      (by decide) rfl).1 (by decide)
  · exact (heartbeat_window_amended c4WSt 100 (fun _ => true) "b" c4ConnFresh
      (by decide) rfl).2 (by decide)

end UfoGalaxy
